import Mathlib

/-!
# Verification of the L1 retrieval stage (`crates/derive/src/stages/l1_retrieval.rs`)

This file gives a shallow embedding of the `L1Retrieval` derivation-pipeline
stage and proves properties of its pull (`next_data`) and `reset` operations.

The retrieval stage itself is translated directly from
`src/crates/derive/src/stages/l1_retrieval.rs`.  Its collaborators
(`BlockInfo`, `SystemConfig`, `L1Traversal`, the `DataAvailabilityProvider`
capability) are declared elsewhere in the repository; they are modelled here
from the specification's description of their interfaces.

Rust `async` is irrelevant to the sequential semantics (single caller, one
operation at a time), so the operations are plain state-passing functions:
a mutating method `fn f(&mut self, ...) -> Result<A>` becomes a Lean function
`State → Except Err A × State`.
-/

namespace L1RetrievalSpec

/-- The stage's byte payload (`alloy_primitives::Bytes`), modelled as a list
of bytes-as-naturals.  Only its identity matters to the retrieval stage. -/
abbrev Bytes := List Nat

/-- Modelled from the spec: `BlockInfo` (crate `types`, not under `src/`) is an
L1 block reference carrying hash, number, timestamp and parent linkage,
immutable once obtained. -/
structure BlockInfo where
  hash : Nat
  number : Nat
  timestamp : Nat
  parent_hash : Nat
deriving DecidableEq, Repr

/-- Modelled from the spec: `SystemConfig` (crate `types`, not under `src/`)
is a configuration snapshot containing at minimum the batcher address
authorized to publish data. -/
structure SystemConfig where
  batcher_addr : Nat
deriving DecidableEq, Repr

/-- Modelled from the spec: the traversal stage (`L1Traversal`, not under
`src/`) advances one L1 block at a time, exposes the current origin block and
the system configuration in effect, and signals exhaustion when no further L1
blocks are available.  Its pending blocks are modelled as the list of blocks
it will advance through, in order. -/
structure L1Traversal where
  blocks : List BlockInfo
  origin : Option BlockInfo
  system_config : SystemConfig
deriving DecidableEq, Repr

/-- Modelled from the spec: the traversal stage's advance operation returns
the next L1 block reference (making it the current origin), or an empty
result signaling no further blocks are currently available (leaving the
traversal unchanged). -/
def L1Traversal.next_l1_block (t : L1Traversal) : Option BlockInfo × L1Traversal :=
  match t.blocks with
  | [] => (none, t)
  | b :: rest => (some b, { t with blocks := rest, origin := some b })

/-- Modelled from the spec: the data-availability capability's asynchronous
open operation takes an L1 block reference and a batcher address and returns
a finite, ordered item feed, or fails with a capability-defined error
(modelled as a numeric code).  The feed (`DAP::DataIter`) is the list of
items it will yield, in order. -/
structure DataAvailabilityProvider (Item : Type) where
  open_data : BlockInfo → Nat → Except Nat (List Item)

/-- Errors surfaced by the retrieval stage.  The source uses `anyhow` string
errors; the three shapes are `noBlock` ("No block to retrieve data from",
upstream exhausted), `openFailed e` (a provider open error propagated
verbatim) and `noMoreData` ("No more data to retrieve", iteration
exhausted). -/
inductive RetrievalError where
  | noBlock
  | openFailed (e : Nat)
  | noMoreData
deriving DecidableEq, Repr

/-- The L1 retrieval stage (`L1Retrieval<T, DAP, CP>`): the previous
(traversal) stage, the data availability provider, and the current optional
data iterator. -/
structure L1Retrieval (Item : Type) where
  prev : L1Traversal
  provider : DataAvailabilityProvider Item
  data : Option (List Item)

variable {Item : Type}

/-- Lines 64-69 of `l1_retrieval.rs`: fetch the next data item from the
iterator.  `self.data.as_mut().and_then(|d| d.next())` yields the head of
the open feed, advancing it; if it yields nothing, the `ok_or_else` closure
clears `self.data` and fails with "No more data to retrieve"; otherwise the
item is converted via `T: Into<Bytes>` (the `into` argument) and returned. -/
def fetch_item (into : Item → Bytes) (s : L1Retrieval Item) :
    Except RetrievalError Bytes × L1Retrieval Item :=
  match s.data with
  | some (d :: rest) => (.ok (into d), { s with data := some rest })
  | some [] => (.error .noMoreData, { s with data := none })
  | none => (.error .noMoreData, { s with data := none })

/-- `L1Retrieval::next_data` (lines 51-70).  If no iterator is open, request
the next L1 block from the traversal stage (failing with "No block to
retrieve data from" if it is exhausted) and open a feed for it keyed by the
traversal's batcher address, propagating any provider error; then fetch the
next item from the (now) open iterator. -/
def next_data (into : Item → Bytes) (s : L1Retrieval Item) :
    Except RetrievalError Bytes × L1Retrieval Item :=
  match s.data with
  | some _ => fetch_item into s
  | none =>
    match s.prev.next_l1_block with
    | (none, t) => (.error .noBlock, { s with prev := t })
    | (some next, t) =>
      match s.provider.open_data next t.system_config.batcher_addr with
      | .error e => (.error (.openFailed e), { s with prev := t })
      | .ok iter => fetch_item into { s with prev := t, data := some iter }

/-- `ResettableStage::reset` for `L1Retrieval` (lines 80-83):
`self.data = Some(self.provider.open_data(&base, cfg.batcher_addr).await?)`.
On provider failure the `?` operator returns before the assignment, so the
`data` field keeps its previous value. -/
def reset (s : L1Retrieval Item) (base : BlockInfo) (cfg : SystemConfig) :
    Except RetrievalError Unit × L1Retrieval Item :=
  match s.provider.open_data base cfg.batcher_addr with
  | .error e => (.error (.openFailed e), s)
  | .ok iter => (.ok (), { s with data := some iter })

/-- `L1Retrieval::origin` (lines 43-45): pure delegation to the traversal
stage's current origin. -/
def L1Retrieval.origin (s : L1Retrieval Item) : Option BlockInfo :=
  s.prev.origin

/-- A run of the pipeline driver: `n` successive `next_data` calls, each
awaited before the next, collecting every result in order. -/
def run (into : Item → Bytes) (s : L1Retrieval Item) :
    Nat → List (Except RetrievalError Bytes) × L1Retrieval Item
  | 0 => ([], s)
  | n + 1 =>
    let r := next_data into s
    let rest := run into r.2 n
    (r.1 :: rest.1, rest.2)

/-- The payloads successfully returned over a run, in order (errors are
control-flow signals, not items). -/
def extractOks (rs : List (Except RetrievalError Bytes)) : List Bytes :=
  rs.filterMap fun r => match r with | .ok b => some b | .error _ => none

/-- The exact result sequence a run produces while draining a list of
blocks: each block contributes its feed's items followed by one
iteration-exhausted signal. -/
def blockResults (into : Item → Bytes) (feed : BlockInfo → List Item) :
    List BlockInfo → List (Except RetrievalError Bytes)
  | [] => []
  | b :: bs => ((feed b).map fun d => Except.ok (into d))
      ++ [Except.error RetrievalError.noMoreData] ++ blockResults into feed bs

/-- Number of `next_data` calls needed to drain a list of blocks: one per
item plus one exhaustion signal per block. -/
def runCost (feed : BlockInfo → List Item) : List BlockInfo → Nat
  | [] => 0
  | b :: bs => (feed b).length + 1 + runCost feed bs

/-- Concrete L1 block used in scenario instantiations. -/
def blockOne : BlockInfo := ⟨1, 1, 100, 0⟩

/-- A second concrete L1 block, child of `blockOne`. -/
def blockTwo : BlockInfo := ⟨2, 2, 200, 1⟩

/-- Concrete system configuration with batcher address 77. -/
def cfgMain : SystemConfig := ⟨77⟩

/-- The item lists of the two-block scenario: `blockOne` yields two items,
every other block yields one. -/
def mainFeed : BlockInfo → List Bytes :=
  fun b => if b = blockOne then [[1], [2]] else [[3]]

/-- Provider realizing `mainFeed`. -/
def providerMain : DataAvailabilityProvider Bytes :=
  ⟨fun b _ => if b = blockOne then .ok [[1], [2]] else .ok [[3]]⟩

/-- Fresh stage over blocks `[blockOne, blockTwo]` with `providerMain` and no
open feed. -/
def stageMain : L1Retrieval Bytes :=
  ⟨⟨[blockOne, blockTwo], none, cfgMain⟩, providerMain, none⟩

/-- Provider whose open of `blockOne` fails (code 7) while `blockTwo`
succeeds. -/
def providerFailFirst : DataAvailabilityProvider Bytes :=
  ⟨fun b _ => if b = blockOne then .error 7 else .ok [[42]]⟩

/-- Fresh stage whose first open will fail. -/
def stageFailOpen : L1Retrieval Bytes :=
  ⟨⟨[blockOne, blockTwo], none, cfgMain⟩, providerFailFirst, none⟩

/-- Provider that always fails to open (code 3). -/
def providerDown : DataAvailabilityProvider Bytes := ⟨fun _ _ => .error 3⟩

/-- Stage with an open feed holding one unread item, over a provider that
always fails to open. -/
def stageActiveDown : L1Retrieval Bytes :=
  ⟨⟨[blockTwo], some blockOne, cfgMain⟩, providerDown, some [[9]]⟩

/-- Stage with an open feed holding two unread items. -/
def stageMidFeed : L1Retrieval Bytes :=
  ⟨⟨[blockTwo], some blockOne, cfgMain⟩, providerMain, some [[5], [6]]⟩

/-- Stage holding an exhausted (empty) open feed with a further block
pending in the traversal. -/
def stageSpent : L1Retrieval Bytes :=
  ⟨⟨[blockTwo], some blockOne, cfgMain⟩, providerMain, some []⟩

/-- Stage with no open feed and an exhausted traversal. -/
def stageDry : L1Retrieval Bytes :=
  ⟨⟨[], some blockTwo, cfgMain⟩, providerMain, none⟩

/-- Provider whose feeds are always empty. -/
def providerEmptyFeed : DataAvailabilityProvider Bytes := ⟨fun _ _ => .ok []⟩

/-- Fresh stage whose first open yields an empty feed. -/
def stageEmptyFeed : L1Retrieval Bytes :=
  ⟨⟨[blockOne, blockTwo], none, cfgMain⟩, providerEmptyFeed, none⟩

theorem run_succ (into : Item → Bytes) (s : L1Retrieval Item) (n : Nat) :
    run into s (n + 1) =
      ((next_data into s).1 :: (run into (next_data into s).2 n).1,
       (run into (next_data into s).2 n).2) := rfl

theorem run_add (into : Item → Bytes) (s : L1Retrieval Item) (m n : Nat) :
    run into s (m + n) =
      ((run into s m).1 ++ (run into (run into s m).2 n).1,
       (run into (run into s m).2 n).2) := by
  induction m generalizing s with
  | zero => simp [run]
  | succ m ih =>
    rw [Nat.succ_add]
    rw [run_succ, run_succ, ih]
    rfl

theorem next_data_active (into : Item → Bytes) (s : L1Retrieval Item)
    (d : Item) (rest : List Item) (h : s.data = some (d :: rest)) :
    next_data into s = (.ok (into d), { s with data := some rest }) := by
  simp [next_data, fetch_item, h]

theorem next_data_active_empty (into : Item → Bytes) (s : L1Retrieval Item)
    (h : s.data = some ([] : List Item)) :
    next_data into s = (.error .noMoreData, { s with data := none }) := by
  simp [next_data, fetch_item, h]

theorem next_data_upstream_exhausted (into : Item → Bytes) (s : L1Retrieval Item)
    (hd : s.data = none) (hb : s.prev.blocks = []) :
    next_data into s = (.error .noBlock, s) := by
  obtain ⟨⟨bl, og, sc⟩, pv, dt⟩ := s
  simp only at hd hb
  subst hd hb
  simp [next_data, L1Traversal.next_l1_block]

theorem next_data_open_fail (into : Item → Bytes) (s : L1Retrieval Item)
    (b : BlockInfo) (bs : List BlockInfo) (e : Nat)
    (hd : s.data = none) (hb : s.prev.blocks = b :: bs)
    (ho : s.provider.open_data b s.prev.system_config.batcher_addr = .error e) :
    next_data into s =
      (.error (.openFailed e),
       { s with prev := { s.prev with blocks := bs, origin := some b } }) := by
  simp [next_data, L1Traversal.next_l1_block, hd, hb, ho]

theorem next_data_open_ok (into : Item → Bytes) (s : L1Retrieval Item)
    (b : BlockInfo) (bs : List BlockInfo) (l : List Item)
    (hd : s.data = none) (hb : s.prev.blocks = b :: bs)
    (ho : s.provider.open_data b s.prev.system_config.batcher_addr = .ok l) :
    next_data into s =
      fetch_item into
        { s with prev := { s.prev with blocks := bs, origin := some b },
                 data := some l } := by
  simp [next_data, L1Traversal.next_l1_block, hd, hb, ho]

theorem drain_some (into : Item → Bytes) :
    ∀ (l : List Item) (s : L1Retrieval Item), s.data = some l →
    run into s (l.length + 1) =
      ((l.map fun d => Except.ok (into d)) ++ [Except.error RetrievalError.noMoreData],
       { s with data := none }) := by
  intro l
  induction l with
  | nil =>
    intro s h
    simp [run, next_data_active_empty into s h]
  | cons d r ih =>
    intro s h
    have h2 : ({ s with data := some r } : L1Retrieval Item).data = some r := rfl
    rw [List.length_cons, run_succ, next_data_active into s d r h]
    simp [ih _ h2]

theorem exhausted_run (into : Item → Bytes) (s : L1Retrieval Item)
    (hd : s.data = none) (hb : s.prev.blocks = []) :
    ∀ n, run into s n = (List.replicate n (Except.error RetrievalError.noBlock), s) := by
  intro n
  induction n with
  | zero => simp [run]
  | succ n ih =>
    rw [run_succ, next_data_upstream_exhausted into s hd hb]
    simp [ih, List.replicate_succ]

theorem open_step (into : Item → Bytes) (s : L1Retrieval Item)
    (b : BlockInfo) (bs : List BlockInfo) (l : List Item)
    (hd : s.data = none) (hb : s.prev.blocks = b :: bs)
    (ho : s.provider.open_data b s.prev.system_config.batcher_addr = .ok l) :
    run into s (l.length + 1) =
      ((l.map fun d => Except.ok (into d)) ++ [Except.error RetrievalError.noMoreData],
       { s with prev := { s.prev with blocks := bs, origin := some b },
                data := none }) := by
  rcases l with _ | ⟨d, r⟩
  · rw [List.length_nil, run_succ, next_data_open_ok into s b bs [] hd hb ho]
    simp [fetch_item, run]
  · have hstep := next_data_open_ok into s b bs (d :: r) hd hb ho
    rw [List.length_cons, run_succ, hstep]
    have h2 : ({ s with prev := { s.prev with blocks := bs, origin := some b }, data := some r } : L1Retrieval Item).data = some r := rfl
    simp [fetch_item, drain_some into r _ h2]

theorem run_blocks (into : Item → Bytes) (feed : BlockInfo → List Item) :
    ∀ (bs : List BlockInfo) (s : L1Retrieval Item), s.data = none →
    s.prev.blocks = bs →
    (∀ b ∈ bs, s.provider.open_data b s.prev.system_config.batcher_addr = Except.ok (feed b)) →
    ∃ o, run into s (runCost feed bs) =
      (blockResults into feed bs,
       { s with prev := { s.prev with blocks := [], origin := o }, data := none }) := by
  intro bs
  induction bs with
  | nil =>
    intro s hd hb _
    refine ⟨s.prev.origin, ?_⟩
    obtain ⟨⟨bl, og, sc⟩, pv, dt⟩ := s
    simp only at hd hb
    subst hd hb
    simp [run, runCost, blockResults]
  | cons b bs' ih =>
    intro s hd hb hopen
    have hcost : runCost feed (b :: bs') = ((feed b).length + 1) + runCost feed bs' := rfl
    have hstep := open_step into s b bs' (feed b) hd hb (hopen b (by simp))
    have h2 : ({ s with prev := { s.prev with blocks := bs', origin := some b }, data := none } : L1Retrieval Item).data = none := rfl
    have h3 : ({ s with prev := { s.prev with blocks := bs', origin := some b }, data := none } : L1Retrieval Item).prev.blocks = bs' := rfl
    have h4 : ∀ b' ∈ bs',
        ({ s with prev := { s.prev with blocks := bs', origin := some b }, data := none } : L1Retrieval Item).provider.open_data b'
          ({ s with prev := { s.prev with blocks := bs', origin := some b }, data := none } : L1Retrieval Item).prev.system_config.batcher_addr
          = Except.ok (feed b') := by
      intro b' hb'
      exact hopen b' (List.mem_cons_of_mem _ hb')
    obtain ⟨o, hrest⟩ := ih _ h2 h3 h4
    refine ⟨o, ?_⟩
    rw [hcost, run_add, hstep]
    simp only at hrest ⊢
    rw [hrest]
    simp [blockResults]

theorem extractOks_append (xs ys : List (Except RetrievalError Bytes)) :
    extractOks (xs ++ ys) = extractOks xs ++ extractOks ys := by
  simp [extractOks]

theorem extractOks_map_ok (into : Item → Bytes) :
    ∀ l : List Item, extractOks (l.map fun d => Except.ok (into d)) = l.map into := by
  intro l
  induction l with
  | nil => simp [extractOks]
  | cons x xs ih => simpa [extractOks, List.filterMap_cons] using ih

theorem extractOks_blockResults (into : Item → Bytes) (feed : BlockInfo → List Item) :
    ∀ bs : List BlockInfo,
      extractOks (blockResults into feed bs) = (bs.flatMap feed).map into := by
  intro bs
  induction bs with
  | nil => simp [blockResults, extractOks]
  | cons b bs' ih =>
    rw [blockResults, extractOks_append, extractOks_append, extractOks_map_ok, ih]
    simp [extractOks]

theorem extractOks_replicate_error (n : Nat) (e : RetrievalError) :
    extractOks (List.replicate n (Except.error e)) = [] := by
  induction n with
  | zero => simp [extractOks]
  | succ n ih => simp [extractOks, List.replicate_succ]

/-- C1: for a stage with no open feed whose traversal will advance through
blocks `B1..Bn`, each opening successfully with item list `feed Bi`, the
payloads successfully returned by repeated `next_data` calls (over any
sufficiently long run) are exactly the concatenation
`feed B1 ++ ... ++ feed Bn` converted to bytes, in that order — items within
one block in feed order, blocks in traversal order, nothing duplicated,
nothing omitted. -/
theorem next_data_returns_concatenation (into : Item → Bytes)
    (feed : BlockInfo → List Item) (s : L1Retrieval Item)
    (hd : s.data = none)
    (hopen : ∀ b ∈ s.prev.blocks,
      s.provider.open_data b s.prev.system_config.batcher_addr = Except.ok (feed b)) :
    ∀ k, extractOks (run into s (runCost feed s.prev.blocks + k)).1
        = (s.prev.blocks.flatMap feed).map into := by
  intro k
  obtain ⟨o, hmain⟩ := run_blocks into feed s.prev.blocks s hd rfl hopen
  rw [run_add, hmain]
  have hex := exhausted_run into { s with prev := { s.prev with blocks := [], origin := o }, data := none } rfl rfl k
  dsimp only
  rw [hex]
  rw [extractOks_append, extractOks_blockResults, extractOks_replicate_error,
    List.append_nil]

/-- Witness for C1 at the two-block scenario: five pulls plus two extra
yield exactly the three payloads. -/
theorem next_data_returns_concatenation_witness :
    extractOks (run id stageMain (runCost mainFeed stageMain.prev.blocks + 2)).1
      = (stageMain.prev.blocks.flatMap mainFeed).map id := by
  have h := next_data_returns_concatenation id mainFeed stageMain rfl
    (by intro b hb; simp [stageMain, List.mem_cons] at hb; rcases hb with rfl | rfl <;> rfl) 2
  exact h

/-- C2 counterexample: with pending blocks `[blockOne, blockTwo]` and a
provider whose open of `blockOne` fails with code 7 (and of `blockTwo`
succeeds with item `[42]`), the failed call leaves no feed open — but the
traversal has already been advanced past `blockOne`: the remaining blocks
are `[blockTwo]`, and the immediately subsequent `next_data` call opens
`blockTwo` and returns its item, rather than re-opening `blockOne` (which
would have failed with code 7 again).  This refutes the claim that a failed
open leaves the traversal at the failed block. -/
theorem open_failure_retries_next_block_cex :
    (next_data id stageFailOpen).1 = Except.error (RetrievalError.openFailed 7) ∧
    (next_data id stageFailOpen).2.data = none ∧
    (next_data id stageFailOpen).2.prev.blocks = [blockTwo] ∧
    (next_data id (next_data id stageFailOpen).2).1 = Except.ok [42] :=
  ⟨rfl, rfl, rfl, rfl⟩

/-- C2 amended: if, during a `next_data` call with no feed open, the open
for the traversal's next block `b` fails, the stage is left with no open
feed (safe in that no partially-open feed remains) and the error is
propagated — but the traversal stage has already been advanced past `b`
during the failed call, so the immediately subsequent `next_data` call
requests the block after `b` (or reports upstream exhaustion), not `b`
itself. -/
theorem open_failure_leaves_idle_but_advances (into : Item → Bytes)
    (s : L1Retrieval Item) (b : BlockInfo) (bs : List BlockInfo) (e : Nat)
    (hd : s.data = none) (hb : s.prev.blocks = b :: bs)
    (ho : s.provider.open_data b s.prev.system_config.batcher_addr = Except.error e) :
    (next_data into s).1 = Except.error (RetrievalError.openFailed e) ∧
    (next_data into s).2.data = none ∧
    (next_data into s).2.prev.blocks = bs ∧
    (next_data into s).2.provider = s.provider := by
  rw [next_data_open_fail into s b bs e hd hb ho]
  exact ⟨rfl, hd, rfl, rfl⟩

/-- Witness for the amended C2 at the concrete failing-open scenario. -/
theorem open_failure_leaves_idle_but_advances_witness :
    (next_data id stageFailOpen).1 = Except.error (RetrievalError.openFailed 7) ∧
    (next_data id stageFailOpen).2.data = none ∧
    (next_data id stageFailOpen).2.prev.blocks = [blockTwo] ∧
    (next_data id stageFailOpen).2.provider = stageFailOpen.provider :=
  open_failure_leaves_idle_but_advances id stageFailOpen blockOne [blockTwo] 7
    rfl rfl rfl

/-- C3 counterexample: on a stage whose open feed still holds item `[9]`,
over a provider that always fails to open (code 3), `reset` fails — and the
stage still holds the old open feed afterwards, refuting the claim that a
failed reset leaves no open feed. -/
theorem reset_failure_keeps_old_feed_cex :
    (reset stageActiveDown blockOne cfgMain).1
        = Except.error (RetrievalError.openFailed 3) ∧
    (reset stageActiveDown blockOne cfgMain).2.data = some [[9]] ∧
    ¬ (reset stageActiveDown blockOne cfgMain).2.data = none := by
  refine ⟨rfl, rfl, ?_⟩
  intro h
  simp [reset, stageActiveDown, providerDown] at h

/-- C3 amended: if `reset(base, cfg)` fails because the provider open for
`(base, cfg.batcher_addr)` returns an error, the error is propagated and
the stage is left exactly as it was before the call — in particular the
previously open feed (if any) is still open, not discarded. -/
theorem reset_failure_preserves_state (s : L1Retrieval Item)
    (base : BlockInfo) (cfg : SystemConfig) (e : Nat)
    (ho : s.provider.open_data base cfg.batcher_addr = Except.error e) :
    reset s base cfg = (Except.error (RetrievalError.openFailed e), s) := by
  simp [reset, ho]

/-- Witness for the amended C3 at the always-failing provider. -/
theorem reset_failure_preserves_state_witness :
    reset stageActiveDown blockTwo cfgMain
      = (Except.error (RetrievalError.openFailed 3), stageActiveDown) :=
  reset_failure_preserves_state stageActiveDown blockTwo cfgMain 3 rfl

/-- C4: a successful `reset(base, cfg)`, from any prior state (feed open
with unread items or not), discards the previous feed and installs the feed
opened for `(base, cfg.batcher_addr)`; the traversal stage is untouched,
and the next `next_data` call returns the first item of `base`'s feed (not
any unread item of the previous feed), leaving the rest of the new feed
open. -/
theorem reset_installs_new_feed (into : Item → Bytes) (s : L1Retrieval Item)
    (base : BlockInfo) (cfg : SystemConfig) (d : Item) (rest : List Item)
    (ho : s.provider.open_data base cfg.batcher_addr = Except.ok (d :: rest)) :
    (reset s base cfg).1 = Except.ok () ∧
    (reset s base cfg).2.data = some (d :: rest) ∧
    (reset s base cfg).2.prev = s.prev ∧
    (next_data into (reset s base cfg).2).1 = Except.ok (into d) ∧
    (next_data into (reset s base cfg).2).2.data = some rest := by
  have h1 : reset s base cfg = (Except.ok (), { s with data := some (d :: rest) }) := by
    simp [reset, ho]
  rw [h1]
  have h2 := next_data_active into { s with data := some (d :: rest) } d rest rfl
  dsimp only
  rw [h2]
  exact ⟨rfl, rfl, rfl, rfl, rfl⟩

/-- Witness for C4: resetting a stage whose open feed still held items
`[5], [6]` to `blockOne` makes the next pull return `blockOne`'s first
item. -/
theorem reset_installs_new_feed_witness :
    (reset stageMidFeed blockOne cfgMain).1 = Except.ok () ∧
    (reset stageMidFeed blockOne cfgMain).2.data = some [[1], [2]] ∧
    (reset stageMidFeed blockOne cfgMain).2.prev = stageMidFeed.prev ∧
    (next_data id (reset stageMidFeed blockOne cfgMain).2).1 = Except.ok [1] ∧
    (next_data id (reset stageMidFeed blockOne cfgMain).2).2.data = some [[2]] :=
  reset_installs_new_feed id stageMidFeed blockOne cfgMain [1] [[2]] rfl

/-- C5: a `next_data` call finding the open feed exhausted discards it
(returning the stage to the no-open-feed state) and fails with the
iteration-exhausted condition; the immediately following call then requests
a new block from the traversal stage — here, with next block `b` whose feed
opens to `d :: rest`, it opens `b`'s feed and returns `d`, consuming `b`
from the traversal, rather than re-using or re-opening the exhausted
feed. -/
theorem exhausted_feed_discard_then_advance (into : Item → Bytes)
    (s : L1Retrieval Item) (b : BlockInfo) (bs : List BlockInfo)
    (d : Item) (rest : List Item)
    (hd : s.data = some ([] : List Item))
    (hb : s.prev.blocks = b :: bs)
    (ho : s.provider.open_data b s.prev.system_config.batcher_addr
        = Except.ok (d :: rest)) :
    next_data into s = (Except.error RetrievalError.noMoreData, { s with data := none }) ∧
    (next_data into { s with data := none }).1 = Except.ok (into d) ∧
    (next_data into { s with data := none }).2.prev.blocks = bs ∧
    (next_data into { s with data := none }).2.data = some rest := by
  have h1 := next_data_active_empty into s hd
  have h2 := next_data_open_ok into { s with data := none } b bs (d :: rest) rfl hb ho
  refine ⟨h1, ?_, ?_, ?_⟩ <;> rw [h2] <;> rfl

/-- Witness for C5: a stage holding an exhausted feed with `blockTwo`
pending. -/
theorem exhausted_feed_discard_then_advance_witness :
    next_data id stageSpent
        = (Except.error RetrievalError.noMoreData, { stageSpent with data := none }) ∧
    (next_data id { stageSpent with data := none }).1 = Except.ok [3] ∧
    (next_data id { stageSpent with data := none }).2.prev.blocks = [] ∧
    (next_data id { stageSpent with data := none }).2.data = some [] :=
  exhausted_feed_discard_then_advance id stageSpent blockTwo [] [3] []
    rfl rfl rfl

/-- C6: a `next_data` call made with no feed open and an exhausted
traversal fails with the upstream-exhausted condition and leaves the
stage's state completely unchanged; consequently any number of repeated
calls yields the same failure each time with no state change. -/
theorem upstream_exhausted_idempotent (into : Item → Bytes) (s : L1Retrieval Item)
    (hd : s.data = none) (hb : s.prev.blocks = []) :
    next_data into s = (Except.error RetrievalError.noBlock, s) ∧
    ∀ n, run into s n = (List.replicate n (Except.error RetrievalError.noBlock), s) :=
  ⟨next_data_upstream_exhausted into s hd hb, exhausted_run into s hd hb⟩

/-- Witness for C6 at a dry stage, repeated three times. -/
theorem upstream_exhausted_idempotent_witness :
    next_data id stageDry = (Except.error RetrievalError.noBlock, stageDry) ∧
    run id stageDry 3
      = (List.replicate 3 (Except.error RetrievalError.noBlock), stageDry) := by
  have h := upstream_exhausted_idempotent id stageDry rfl rfl
  exact ⟨h.1, h.2 3⟩

/-- C7 counterexample: in the concrete run (blockOne's feed `[[1], [2]]`,
blockTwo's feed `[[3]]`, no third block), the raw sequence of successive
`next_data` results is not `d1, d2, d3, UpstreamExhausted,
UpstreamExhausted`: the third call returns the iteration-exhausted signal
for blockOne's drained feed, not `d3`. -/
theorem concrete_sequence_cex :
    (run id stageMain 5).1 ≠
      [Except.ok [1], Except.ok [2], Except.ok [3],
       Except.error RetrievalError.noBlock, Except.error RetrievalError.noBlock] := by
  have hval : (run id stageMain 5).1 =
      [Except.ok [1], Except.ok [2], Except.error RetrievalError.noMoreData,
       Except.ok [3], Except.error RetrievalError.noMoreData] := rfl
  rw [hval]
  simp

/-- C7 amended: in the concrete run (blockOne's feed `[[1], [2]]`,
blockTwo's feed `[[3]]`, no third block), successive `next_data` calls
produce `d1, d2, IterationExhausted, d3, IterationExhausted,
UpstreamExhausted, UpstreamExhausted` — one iteration-exhausted signal
after each block's feed drains, then upstream-exhausted repeatedly; the
successfully returned payloads are exactly `d1, d2, d3` in order. -/
theorem concrete_sequence_full_run :
    (run id stageMain 7).1 =
      [Except.ok [1], Except.ok [2], Except.error RetrievalError.noMoreData,
       Except.ok [3], Except.error RetrievalError.noMoreData,
       Except.error RetrievalError.noBlock, Except.error RetrievalError.noBlock] ∧
    extractOks (run id stageMain 7).1 = [[1], [2], [3]] :=
  ⟨rfl, rfl⟩

/-- C8: whenever a `next_data` call obtains an item from the feed — either
from an already-open feed or from the feed it just opened — the conversion
to the stage's byte payload is the total function `into` (`T: Into<Bytes>`),
so the call returns successfully with the item's byte representation; no
conversion-failure outcome exists. -/
theorem item_conversion_infallible (into : Item → Bytes) (s : L1Retrieval Item)
    (d : Item) (rest : List Item) (b : BlockInfo) (bs : List BlockInfo) :
    (s.data = some (d :: rest) →
      next_data into s = (Except.ok (into d), { s with data := some rest })) ∧
    (s.data = none → s.prev.blocks = b :: bs →
      s.provider.open_data b s.prev.system_config.batcher_addr = Except.ok (d :: rest) →
      (next_data into s).1 = Except.ok (into d)) := by
  constructor
  · intro h
    exact next_data_active into s d rest h
  · intro hd hb ho
    rw [next_data_open_ok into s b bs (d :: rest) hd hb ho]
    rfl

/-- Witness for C8: both the already-open-feed case and the
freshly-opened-feed case at concrete stages. -/
theorem item_conversion_infallible_witness :
    next_data id stageMidFeed
        = (Except.ok [5], { stageMidFeed with data := some [[6]] }) ∧
    (next_data id stageMain).1 = Except.ok [1] :=
  ⟨(item_conversion_infallible id stageMidFeed [5] [[6]] blockOne []).1 rfl,
   (item_conversion_infallible id stageMain [1] [[2]] blockOne [blockTwo]).2
     rfl rfl rfl⟩

/-- C9: a `next_data` call made while a feed is already open leaves the
traversal stage (the `prev` field) and the provider completely unchanged —
the traversal is consulted only on calls that begin with no open feed, so
such a pull modifies only the `data` field. -/
theorem active_pull_preserves_prev (into : Item → Bytes) (s : L1Retrieval Item)
    (l : List Item) (h : s.data = some l) :
    (next_data into s).2.prev = s.prev ∧
    (next_data into s).2.provider = s.provider := by
  rcases l with _ | ⟨d, rest⟩
  · rw [next_data_active_empty into s h]
    exact ⟨rfl, rfl⟩
  · rw [next_data_active into s d rest h]
    exact ⟨rfl, rfl⟩

/-- Witness for C9 at a stage with an open two-item feed. -/
theorem active_pull_preserves_prev_witness :
    (next_data id stageMidFeed).2.prev = stageMidFeed.prev ∧
    (next_data id stageMidFeed).2.provider = stageMidFeed.provider :=
  active_pull_preserves_prev id stageMidFeed [[5], [6]] rfl

/-- C10: if a `next_data` call opens a new feed whose item sequence is
empty, that same call fails with the iteration-exhausted condition (not an
item) and leaves no open feed, having advanced the traversal by exactly the
one block it opened — it neither advances further nor returns an item from
any other block. -/
theorem empty_feed_open_fails_same_call (into : Item → Bytes) (s : L1Retrieval Item)
    (b : BlockInfo) (bs : List BlockInfo)
    (hd : s.data = none) (hb : s.prev.blocks = b :: bs)
    (ho : s.provider.open_data b s.prev.system_config.batcher_addr
        = Except.ok ([] : List Item)) :
    (next_data into s).1 = Except.error RetrievalError.noMoreData ∧
    (next_data into s).2.data = none ∧
    (next_data into s).2.prev.blocks = bs ∧
    (next_data into s).2.provider = s.provider := by
  rw [next_data_open_ok into s b bs [] hd hb ho]
  exact ⟨rfl, rfl, rfl, rfl⟩

/-- Witness for C10 at a fresh stage whose provider yields empty feeds. -/
theorem empty_feed_open_fails_same_call_witness :
    (next_data id stageEmptyFeed).1 = Except.error RetrievalError.noMoreData ∧
    (next_data id stageEmptyFeed).2.data = none ∧
    (next_data id stageEmptyFeed).2.prev.blocks = [blockTwo] ∧
    (next_data id stageEmptyFeed).2.provider = stageEmptyFeed.provider :=
  empty_feed_open_fails_same_call id stageEmptyFeed blockOne [blockTwo]
    rfl rfl rfl

end L1RetrievalSpec
